import Mathlib

/-!
Verification of the media sample-buffer module (`MediaData.cpp`):
`AudioData` construction / trimming / buffer extraction, `VideoData`
creation / validation / timestamp updates, and `MediaRawData::Clone`.

The module's own logic is translated directly from the C++ source.
Auxiliary types that the module uses but whose implementation is not part
of the sources (`media::TimeUnit`, `CheckedInt`), are modelled from the
spec: rational tick-based time with checked 64-bit arithmetic, and
checked unsigned 32-bit arithmetic.
-/

set_option autoImplicit false

namespace MediaData

/-- Whether an integer fits in a signed 64-bit machine word
(the validity condition of a `CheckedInt64`). -/
def fitsInt64 (n : Int) : Bool := decide (-(2 ^ 63) ≤ n ∧ n < 2 ^ 63)

/-- Modelled from the spec: `media::TimeUnit` (not among the sources) is a
rational number of seconds, `mTicks / mBase`, whose tick count is a checked
64-bit integer; `valid` records whether any checked arithmetic on the way
to this value overflowed. -/
structure TimeUnit where
  mTicks : Int
  mBase : Int
  valid : Bool
  deriving Repr, DecidableEq

/-- `TimeUnit::Zero()`: zero seconds. -/
def TimeUnit.zero : TimeUnit := ⟨0, 1, true⟩

/-- The `TimeUnit(CheckedInt64 aTicks, int64_t aBase)` constructor:
valid iff the tick count fits in 64 bits. -/
def TimeUnit.ofTicks (ticks base : Int) : TimeUnit := ⟨ticks, base, fitsInt64 ticks⟩

/-- A millisecond literal, `n / 1000` seconds. -/
def TimeUnit.fromMs (n : Int) : TimeUnit := ⟨n, 1000, true⟩

/-- Modelled from the spec: checked rational addition; on a common base the
ticks add, otherwise cross-multiplication; the result is valid when both
operands were and the new tick count fits in 64 bits. -/
def TimeUnit.add (a b : TimeUnit) : TimeUnit :=
  if a.mBase = b.mBase then
    ⟨a.mTicks + b.mTicks, a.mBase, a.valid && b.valid && fitsInt64 (a.mTicks + b.mTicks)⟩
  else
    ⟨a.mTicks * b.mBase + b.mTicks * a.mBase, a.mBase * b.mBase,
      a.valid && b.valid && fitsInt64 (a.mTicks * b.mBase + b.mTicks * a.mBase)⟩

/-- Modelled from the spec: checked rational subtraction. -/
def TimeUnit.sub (a b : TimeUnit) : TimeUnit :=
  if a.mBase = b.mBase then
    ⟨a.mTicks - b.mTicks, a.mBase, a.valid && b.valid && fitsInt64 (a.mTicks - b.mTicks)⟩
  else
    ⟨a.mTicks * b.mBase - b.mTicks * a.mBase, a.mBase * b.mBase,
      a.valid && b.valid && fitsInt64 (a.mTicks * b.mBase - b.mTicks * a.mBase)⟩

/-- Rational order comparison (`operator<`), for positive bases. -/
def TimeUnit.lt (a b : TimeUnit) : Bool := decide (a.mTicks * b.mBase < b.mTicks * a.mBase)

/-- Rational equality comparison (`operator==`), for positive bases. -/
def TimeUnit.eqRat (a b : TimeUnit) : Bool := decide (a.mTicks * b.mBase = b.mTicks * a.mBase)

/-- `TimeUnit::IsZero()`. -/
def TimeUnit.isZero (a : TimeUnit) : Bool := decide (a.mTicks = 0)

/-- `TimeUnit::IsNegative()`. -/
def TimeUnit.isNegative (a : TimeUnit) : Bool := decide (a.mTicks < 0)

/-- `TimeUnit::IsBase(aRate)`. -/
def TimeUnit.isBase (a : TimeUnit) (rate : Nat) : Bool := decide (a.mBase = (rate : Int))

/-- Modelled from the spec: `TimeUnit::ToTicksAtRate(aRate)`, the tick count
rescaled to a new base with C++ (truncating) integer division. -/
def TimeUnit.toTicksAtRate (a : TimeUnit) (rate : Nat) : Int :=
  if a.mBase = (rate : Int) then a.mTicks else Int.tdiv (a.mTicks * (rate : Int)) a.mBase

/-- `media::TimeInterval`: a start/end pair of time units. -/
structure TimeInterval where
  mStart : TimeUnit
  mEnd : TimeUnit
  deriving Repr, DecidableEq

/-- The `AudioData` state: sample-level metadata plus the owned interleaved
buffer.  The buffer is `none` once `MoveableData` has moved it out
(a moved-from `AlignedAudioBuffer` is null). -/
structure AudioData where
  mOffset : Int
  mTime : TimeUnit
  mDuration : TimeUnit
  mChannels : Nat
  mChannelMap : Nat
  mRate : Nat
  mOriginalTime : TimeUnit
  mAudioData : Option (List Int)
  mFrames : Nat
  mDataOffset : Nat
  mTrimWindow : Option TimeInterval
  deriving Repr, DecidableEq

/-- Outcome of running the `AudioData` constructor: either the constructed
state, or the message of the `MOZ_RELEASE_ASSERT` that fired. -/
inductive AudioCtorResult where
  | assertCrash (msg : String)
  | ok (a : AudioData)
  deriving Repr, DecidableEq

/-- `AudioData::AudioData(aOffset, aTime, aData, aChannels, aRate,
aChannelMap)`: release-asserts on zero channels or rate.  The member
initializer `mFrames(mAudioData.Length() / aChannels)` divides the
`size_t` length and narrows the quotient into the `uint32_t` member
`mFrames` (wrapping mod 2^32); `mDuration = TimeUnit(mFrames, aRate)` is
then built from that narrowed value. -/
def mkAudioData (aOffset : Int) (aTime : TimeUnit) (aData : List Int)
    (aChannels aRate aChannelMap : Nat) : AudioCtorResult :=
  if aChannels = 0 then
    .assertCrash "Can't create an AudioData with 0 channels."
  else if aRate = 0 then
    .assertCrash "Can't create an AudioData with a sample-rate of 0."
  else
    .ok { mOffset := aOffset
          mTime := aTime
          mDuration :=
            TimeUnit.ofTicks ((aData.length / aChannels % 2 ^ 32 : Nat) : Int) (aRate : Int)
          mChannels := aChannels
          mChannelMap := aChannelMap
          mRate := aRate
          mOriginalTime := aTime
          mAudioData := some aData
          mFrames := aData.length / aChannels % 2 ^ 32
          mDataOffset := 0
          mTrimWindow := none }

/-- `MediaData::GetEndTime()`: `mTime + mDuration`. -/
def AudioData.getEndTime (s : AudioData) : TimeUnit := TimeUnit.add s.mTime s.mDuration

/-- `AudioData::Data()`: the span starting at `GetAdjustedData()`
(buffer displaced by `mDataOffset`) of length `mFrames * mChannels`;
empty when the buffer has been moved out. -/
def AudioData.dataSpan (s : AudioData) : List Int :=
  match s.mAudioData with
  | none => []
  | some buf => (buf.drop s.mDataOffset).take (s.mFrames * s.mChannels)

/-- `AudioData::SetTrimWindow(aTrim)`, returning the C++ return value
together with the post-state.  In the frame-count-mismatch branch the
code release-asserts that `trimBefore` is not already in the rate base
before accepting the rounding error with `mFrames = 0`; the model keeps
the `mFrames = 0` outcome that the assertion guards. -/
def AudioData.setTrimWindow (s : AudioData) (aTrim : TimeInterval) : Bool × AudioData :=
  match s.mAudioData with
  | none => (false, s)
  | some buf =>
    if TimeUnit.lt aTrim.mStart s.mOriginalTime || TimeUnit.lt s.getEndTime aTrim.mEnd then
      (false, s)
    else
      let trimBefore := TimeUnit.sub aTrim.mStart s.mOriginalTime
      let trimAfter := TimeUnit.sub aTrim.mEnd s.mOriginalTime
      if !trimBefore.valid || !trimAfter.valid then
        (false, s)
      else if s.mTrimWindow.isNone && trimBefore.isZero && TimeUnit.eqRat trimAfter s.mDuration then
        (true, s)
      else
        let frameOffset := (trimBefore.toTicksAtRate s.mRate).toNat
        let frameCountAfterTrim := (TimeUnit.sub trimAfter trimBefore).toTicksAtRate s.mRate
        let newFrames : Nat :=
          if ((buf.length / s.mChannels : Nat) : Int) < frameCountAfterTrim then 0
          else (frameCountAfterTrim % (2 ^ 32 : Int)).toNat
        (true,
          { s with
            mTrimWindow := some aTrim
            mDataOffset := frameOffset * s.mChannels
            mFrames := newFrames
            mTime := TimeUnit.add s.mOriginalTime trimBefore
            mDuration := TimeUnit.ofTicks (newFrames : Int) (s.mRate : Int) })

/-- `AudioData::MoveableData()`: pops `mDataOffset`, truncates to
`mFrames * mChannels`, zeroes the bookkeeping, clears the trim window and
moves the buffer out (leaving it null). -/
def AudioData.moveableData (s : AudioData) : List Int × AudioData :=
  match s.mAudioData with
  | none =>
      ([], { s with mAudioData := none, mDataOffset := 0, mFrames := 0, mTrimWindow := none })
  | some buf =>
      ((buf.drop s.mDataOffset).take (s.mFrames * s.mChannels),
        { s with mAudioData := none, mDataOffset := 0, mFrames := 0, mTrimWindow := none })

/-- `VideoData::YCbCrBuffer::Plane`: the size-relevant fields (width, height,
stride in pixels). -/
structure Plane where
  mWidth : Nat
  mHeight : Nat
  mStride : Nat
  deriving Repr, DecidableEq

/-- `VideoData::YCbCrBuffer`: the three planes `mPlanes[0..2]`. -/
structure YCbCrBuffer where
  mPlanes0 : Plane
  mPlanes1 : Plane
  mPlanes2 : Plane
  deriving Repr, DecidableEq

/-- `gfx::IntRect`: a picture rectangle with signed 32-bit fields. -/
structure IntRect where
  x : Int
  y : Int
  width : Int
  height : Int
  deriving Repr, DecidableEq

/-- Modelled from the spec: construction of a `CheckedUint32` from a signed
value — valid iff it is representable in an unsigned 32-bit word. -/
def checkedUint32 (i : Int) : Option Nat :=
  if 0 ≤ i ∧ i < 2 ^ 32 then some i.toNat else none

/-- Modelled from the spec: checked unsigned 32-bit addition of two signed
inputs, as in `aPicture.x + CheckedUint32(aPicture.width)`. -/
def checkedAddUint32 (x w : Int) : Option Nat :=
  match checkedUint32 x, checkedUint32 w with
  | some a, some b => if a + b < 2 ^ 32 then some (a + b) else none
  | _, _ => none

/-- `ValidatePlane(aPlane)`: dimension bounds, pixel budget, positive stride
at least the width.  `maxDimension` stands for
`PlanarYCbCrImage::MAX_DIMENSION` and `pixelBudget` for
`MAX_VIDEO_WIDTH * MAX_VIDEO_HEIGHT`; both constants live outside the
sources, so they are parameters here. -/
def validatePlane (maxDimension pixelBudget : Nat) (aPlane : Plane) : Bool :=
  decide (aPlane.mWidth ≤ maxDimension) && decide (aPlane.mHeight ≤ maxDimension) &&
    decide (aPlane.mWidth * aPlane.mHeight < pixelBudget) &&
    decide (0 < aPlane.mStride) && decide (aPlane.mWidth ≤ aPlane.mStride)

/-- The error values a `MediaResult` can carry here: `NS_ERROR_INVALID_ARG`
with its reason string, `NS_ERROR_OUT_OF_MEMORY`, or a failed image copy. -/
inductive MediaErr where
  | invalidArg (msg : String)
  | oom (msg : String)
  | copyFailed (msg : String)
  deriving Repr, DecidableEq

/-- `ValidateBufferAndPicture(aBuffer, aPicture)`: chroma plane agreement,
non-empty picture, per-plane validation, then the checked picture-limit
test against the Y plane. -/
def validateBufferAndPicture (maxDimension pixelBudget : Nat)
    (aBuffer : YCbCrBuffer) (aPicture : IntRect) : Except MediaErr Unit :=
  if aBuffer.mPlanes1.mWidth ≠ aBuffer.mPlanes2.mWidth ∨
      aBuffer.mPlanes1.mHeight ≠ aBuffer.mPlanes2.mHeight then
    .error (.invalidArg "Chroma planes with different sizes")
  else if aPicture.width ≤ 0 ∨ aPicture.height ≤ 0 then
    .error (.invalidArg "Empty picture rect")
  else if !(validatePlane maxDimension pixelBudget aBuffer.mPlanes0 &&
      validatePlane maxDimension pixelBudget aBuffer.mPlanes1 &&
      validatePlane maxDimension pixelBudget aBuffer.mPlanes2) then
    .error (.invalidArg "Invalid plane size")
  else
    match checkedAddUint32 aPicture.x aPicture.width,
        checkedAddUint32 aPicture.y aPicture.height with
    | some xLimit, some yLimit =>
        if aBuffer.mPlanes0.mStride < xLimit ∨ aBuffer.mPlanes0.mHeight < yLimit then
          .error (.invalidArg "Overflowing picture rect")
        else
          .ok ()
    | _, _ => .error (.invalidArg "Overflowing picture rect")

/-- The `VideoData` state set up by its constructor; `mImage` is filled in
later (it stays `none` for the dummy frame made without a container). -/
structure VideoData where
  mOffset : Int
  mTime : TimeUnit
  mDuration : TimeUnit
  mKeyframe : Bool
  mTimecode : TimeUnit
  mDisplay : Nat × Nat
  mImage : Option Unit
  deriving Repr, DecidableEq

/-- The `VideoData` constructor: stores the metadata, no image yet. -/
def mkVideoData (aOffset : Int) (aTime aDuration : TimeUnit) (aKeyframe : Bool)
    (aTimecode : TimeUnit) (aDisplay : Nat × Nat) : VideoData :=
  { mOffset := aOffset
    mTime := aTime
    mDuration := aDuration
    mKeyframe := aKeyframe
    mTimecode := aTimecode
    mDisplay := aDisplay
    mImage := none }

/-- `VideoData::CreateAndCopyData` (the `Result`-returning overload).
`hasContainer` is whether `aContainer` is non-null; `imageCreated` whether
`CreatePlanarYCbCrImage` succeeds; `copyOk` whether `CopyData` succeeds —
environment outcomes the C++ obtains from the gfx layer.  The boolean in
the result records whether the plane-copy step was ever invoked. -/
def createAndCopyData (maxDimension pixelBudget : Nat)
    (hasContainer imageCreated copyOk : Bool) (aInfoDisplay : Nat × Nat)
    (aOffset : Int) (aTime aDuration : TimeUnit) (aBuffer : YCbCrBuffer)
    (aKeyframe : Bool) (aTimecode : TimeUnit) (aPicture : IntRect) :
    Except MediaErr VideoData × Bool :=
  if !hasContainer then
    (.ok (mkVideoData aOffset aTime aDuration aKeyframe aTimecode aInfoDisplay), false)
  else
    match validateBufferAndPicture maxDimension pixelBudget aBuffer aPicture with
    | .error r => (.error r, false)
    | .ok _ =>
      if !imageCreated then
        (.error (.oom "Failed to create a PlanarYCbCrImage"), false)
      else if copyOk then
        ({ mkVideoData aOffset aTime aDuration aKeyframe aTimecode aInfoDisplay with
            mImage := some () } |> .ok, true)
      else
        (.error (.copyFailed "Failed to copy image data"), true)

/-- `MediaData::GetEndTime()` for a video frame. -/
def VideoData.getEndTime (s : VideoData) : TimeUnit := TimeUnit.add s.mTime s.mDuration

/-- `VideoData::UpdateDuration(aDuration)`: stores the new duration. -/
def VideoData.updateDuration (s : VideoData) (aDuration : TimeUnit) : VideoData :=
  { s with mDuration := aDuration }

/-- `VideoData::UpdateTimestamp(aTimestamp)`: recomputes the duration from
the old end time so the end time is preserved. -/
def VideoData.updateTimestamp (s : VideoData) (aTimestamp : TimeUnit) : VideoData :=
  { s with
    mTime := aTimestamp
    mDuration := TimeUnit.sub s.getEndTime aTimestamp }

/-- The fields of a `MediaRawData` sample that `Clone` transfers.
`mExtraData` and `mTrackInfo` are `RefPtr`s, modelled as shareable
reference identities; `mCryptoInternal` is a value copied member-wise. -/
structure MediaRawData where
  mTimecode : TimeUnit
  mTime : TimeUnit
  mDuration : TimeUnit
  mOffset : Int
  mKeyframe : Bool
  mExtraData : Option Nat
  mCryptoInternal : Nat
  mTrackInfo : Option Nat
  mEOS : Bool
  mOriginalPresentationWindow : Option TimeInterval
  mBuffer : List Nat
  mAlphaBuffer : List Nat
  deriving Repr, DecidableEq

/-- `MediaRawData::Clone()`: copies the metadata onto a fresh sample, then
appends the primary and alpha payloads; `bufferAllocOk` / `alphaAllocOk`
are whether those two fallible `Append` allocations succeed; a failed
append returns null. -/
def MediaRawData.clone (s : MediaRawData) (bufferAllocOk alphaAllocOk : Bool) :
    Option MediaRawData :=
  let t : MediaRawData :=
    { mTimecode := s.mTimecode
      mTime := s.mTime
      mDuration := s.mDuration
      mOffset := s.mOffset
      mKeyframe := s.mKeyframe
      mExtraData := s.mExtraData
      mCryptoInternal := s.mCryptoInternal
      mTrackInfo := s.mTrackInfo
      mEOS := s.mEOS
      mOriginalPresentationWindow := s.mOriginalPresentationWindow
      mBuffer := []
      mAlphaBuffer := [] }
  if !bufferAllocOk then none
  else
    let t := { t with mBuffer := t.mBuffer ++ s.mBuffer }
    if !alphaAllocOk then none
    else some { t with mAlphaBuffer := t.mAlphaBuffer ++ s.mAlphaBuffer }

/-- Whether an `AudioData` construction ended in a release-assert crash. -/
def AudioCtorResult.isAssertCrash : AudioCtorResult → Bool
  | .assertCrash _ => true
  | .ok _ => false

/-- The picture rectangle exceeds the Y-plane bounds: `x + width` overflows
or exceeds the Y stride, or `y + height` overflows or exceeds the
Y height (the condition guarded against by `ValidateBufferAndPicture`). -/
def picExceedsYPlaneBounds (aBuffer : YCbCrBuffer) (aPicture : IntRect) : Bool :=
  (match checkedAddUint32 aPicture.x aPicture.width with
    | none => true
    | some v => decide (aBuffer.mPlanes0.mStride < v)) ||
  (match checkedAddUint32 aPicture.y aPicture.height with
    | none => true
    | some v => decide (aBuffer.mPlanes0.mHeight < v))

/-- Whether a `CreateAndCopyData` outcome is an `NS_ERROR_INVALID_ARG` with
one of the four reason strings of `ValidateBufferAndPicture`. -/
def isListedInvalidArg (e : Except MediaErr VideoData) : Bool :=
  match e with
  | .error (.invalidArg msg) =>
      decide (msg = "Chroma planes with different sizes" ∨ msg = "Empty picture rect" ∨
        msg = "Invalid plane size" ∨ msg = "Overflowing picture rect")
  | _ => false

/-! ## Helper lemmas -/

theorem TimeUnit.lt_self (a : TimeUnit) : TimeUnit.lt a a = false := by
  simp [TimeUnit.lt]

theorem TimeUnit.add_same (a b : TimeUnit) (h : a.mBase = b.mBase) :
    TimeUnit.add a b =
      ⟨a.mTicks + b.mTicks, a.mBase, a.valid && b.valid && fitsInt64 (a.mTicks + b.mTicks)⟩ := by
  simp [TimeUnit.add, h]

theorem TimeUnit.add_diff (a b : TimeUnit) (h : a.mBase ≠ b.mBase) :
    TimeUnit.add a b =
      ⟨a.mTicks * b.mBase + b.mTicks * a.mBase, a.mBase * b.mBase,
        a.valid && b.valid && fitsInt64 (a.mTicks * b.mBase + b.mTicks * a.mBase)⟩ := by
  simp [TimeUnit.add, h]

theorem TimeUnit.sub_same (a b : TimeUnit) (h : a.mBase = b.mBase) :
    TimeUnit.sub a b =
      ⟨a.mTicks - b.mTicks, a.mBase, a.valid && b.valid && fitsInt64 (a.mTicks - b.mTicks)⟩ := by
  simp [TimeUnit.sub, h]

theorem TimeUnit.sub_diff (a b : TimeUnit) (h : a.mBase ≠ b.mBase) :
    TimeUnit.sub a b =
      ⟨a.mTicks * b.mBase - b.mTicks * a.mBase, a.mBase * b.mBase,
        a.valid && b.valid && fitsInt64 (a.mTicks * b.mBase - b.mTicks * a.mBase)⟩ := by
  simp [TimeUnit.sub, h]

/-- Adding back a subtracted time unit is the rational identity:
`b + (a - b)` equals `a` as a rational, for nonzero bases. -/
theorem TimeUnit.eqRat_add_sub (a b : TimeUnit) (hb : b.mBase ≠ 0) :
    TimeUnit.eqRat (TimeUnit.add b (TimeUnit.sub a b)) a = true := by
  by_cases h1 : a.mBase = b.mBase
  · rw [TimeUnit.sub_same a b h1,
      TimeUnit.add_same b
        ⟨a.mTicks - b.mTicks, a.mBase, a.valid && b.valid && fitsInt64 (a.mTicks - b.mTicks)⟩
        h1.symm]
    simp only [TimeUnit.eqRat, decide_eq_true_eq]
    rw [h1]
    ring
  · rw [TimeUnit.sub_diff a b h1]
    by_cases h2 : b.mBase = a.mBase * b.mBase
    · have hba : a.mBase = 1 := by
        have h3 : a.mBase * b.mBase = 1 * b.mBase := by linarith [h2.symm]
        exact mul_right_cancel₀ hb h3
      rw [TimeUnit.add_same b
        ⟨a.mTicks * b.mBase - b.mTicks * a.mBase, a.mBase * b.mBase,
          a.valid && b.valid && fitsInt64 (a.mTicks * b.mBase - b.mTicks * a.mBase)⟩ h2]
      simp only [TimeUnit.eqRat, decide_eq_true_eq]
      rw [hba]
      ring
    · rw [TimeUnit.add_diff b
        ⟨a.mTicks * b.mBase - b.mTicks * a.mBase, a.mBase * b.mBase,
          a.valid && b.valid && fitsInt64 (a.mTicks * b.mBase - b.mTicks * a.mBase)⟩ h2]
      simp only [TimeUnit.eqRat, decide_eq_true_eq]
      ring

/-- Subtracting a time unit after adding it is the rational identity:
`(t + d) - t` equals `d` as a rational, for nonzero bases of `t`. -/
theorem TimeUnit.eqRat_sub_add (t d : TimeUnit) (ht : t.mBase ≠ 0) :
    TimeUnit.eqRat (TimeUnit.sub (TimeUnit.add t d) t) d = true := by
  by_cases h1 : t.mBase = d.mBase
  · rw [TimeUnit.add_same t d h1,
      TimeUnit.sub_same
        ⟨t.mTicks + d.mTicks, t.mBase, t.valid && d.valid && fitsInt64 (t.mTicks + d.mTicks)⟩
        t rfl]
    simp only [TimeUnit.eqRat, decide_eq_true_eq]
    rw [h1]
    ring
  · rw [TimeUnit.add_diff t d h1]
    by_cases h2 : t.mBase * d.mBase = t.mBase
    · have hbd : d.mBase = 1 := by
        have h3 : t.mBase * d.mBase = t.mBase * 1 := by linarith [h2]
        exact mul_left_cancel₀ ht h3
      rw [TimeUnit.sub_same
        ⟨t.mTicks * d.mBase + d.mTicks * t.mBase, t.mBase * d.mBase,
          t.valid && d.valid && fitsInt64 (t.mTicks * d.mBase + d.mTicks * t.mBase)⟩ t h2]
      simp only [TimeUnit.eqRat, decide_eq_true_eq]
      rw [hbd]
      ring
    · rw [TimeUnit.sub_diff
        ⟨t.mTicks * d.mBase + d.mTicks * t.mBase, t.mBase * d.mBase,
          t.valid && d.valid && fitsInt64 (t.mTicks * d.mBase + d.mTicks * t.mBase)⟩ t h2]
      simp only [TimeUnit.eqRat, decide_eq_true_eq]
      ring

/-- `SetTrimWindow` returns false and leaves the state alone whenever the
window lies outside `[mOriginalTime, GetEndTime()]` or the checked
subtraction against `mOriginalTime` overflows. -/
theorem setTrimWindow_reject (s : AudioData) (aTrim : TimeInterval)
    (h : TimeUnit.lt aTrim.mStart s.mOriginalTime = true ∨
        TimeUnit.lt s.getEndTime aTrim.mEnd = true ∨
        (TimeUnit.sub aTrim.mStart s.mOriginalTime).valid = false ∨
        (TimeUnit.sub aTrim.mEnd s.mOriginalTime).valid = false) :
    s.setTrimWindow aTrim = (false, s) := by
  cases hbuf : s.mAudioData with
  | none => simp [AudioData.setTrimWindow, hbuf]
  | some buf =>
    by_cases h1 : (TimeUnit.lt aTrim.mStart s.mOriginalTime ||
        TimeUnit.lt s.getEndTime aTrim.mEnd) = true
    · simp [AudioData.setTrimWindow, hbuf, h1]
    · have h1' := h1
      rw [Bool.or_eq_true, not_or] at h1'
      obtain ⟨hl1, hl2⟩ := h1'
      rcases h with h | h | h | h
      · exact absurd h hl1
      · exact absurd h hl2
      · simp [AudioData.setTrimWindow, hbuf, Bool.or_eq_true, hl1, hl2, h]
      · simp [AudioData.setTrimWindow, hbuf, Bool.or_eq_true, hl1, hl2, h]

/-- Applying the full-range trim window to an untrimmed frame takes the
early-return path: it returns true and changes nothing. -/
theorem setTrimWindow_full_range_noop (s : AudioData) (buf : List Int)
    (hbuf : s.mAudioData = some buf) (hnone : s.mTrimWindow = none)
    (hv1 : (TimeUnit.sub s.mOriginalTime s.mOriginalTime).valid = true)
    (hv2 : (TimeUnit.sub s.getEndTime s.mOriginalTime).valid = true)
    (heqr : TimeUnit.eqRat (TimeUnit.sub s.getEndTime s.mOriginalTime) s.mDuration = true) :
    s.setTrimWindow ⟨s.mOriginalTime, s.getEndTime⟩ = (true, s) := by
  simp only [AudioData.setTrimWindow, hbuf]
  rw [TimeUnit.lt_self, TimeUnit.lt_self]
  simp only [Bool.or_self, Bool.false_eq_true, if_false, hv1, hv2]
  have hzero : (TimeUnit.sub s.mOriginalTime s.mOriginalTime).isZero = true := by
    simp [TimeUnit.sub, TimeUnit.isZero]
  simp [hnone, hzero, heqr]

/-- Applying the full-range trim window to an untrimmed frame twice returns
true both times with frame count and data offset unchanged. -/
theorem setTrimWindow_full_range_twice (s : AudioData) (buf : List Int)
    (hbuf : s.mAudioData = some buf) (hnone : s.mTrimWindow = none)
    (hv1 : (TimeUnit.sub s.mOriginalTime s.mOriginalTime).valid = true)
    (hv2 : (TimeUnit.sub s.getEndTime s.mOriginalTime).valid = true)
    (heqr : TimeUnit.eqRat (TimeUnit.sub s.getEndTime s.mOriginalTime) s.mDuration = true) :
    (s.setTrimWindow ⟨s.mOriginalTime, s.getEndTime⟩).1 = true ∧
    ((s.setTrimWindow ⟨s.mOriginalTime, s.getEndTime⟩).2.setTrimWindow
        ⟨s.mOriginalTime, s.getEndTime⟩).1 = true ∧
    ((s.setTrimWindow ⟨s.mOriginalTime, s.getEndTime⟩).2.setTrimWindow
        ⟨s.mOriginalTime, s.getEndTime⟩).2.mFrames =
      (s.setTrimWindow ⟨s.mOriginalTime, s.getEndTime⟩).2.mFrames ∧
    ((s.setTrimWindow ⟨s.mOriginalTime, s.getEndTime⟩).2.setTrimWindow
        ⟨s.mOriginalTime, s.getEndTime⟩).2.mDataOffset =
      (s.setTrimWindow ⟨s.mOriginalTime, s.getEndTime⟩).2.mDataOffset := by
  have hfull := setTrimWindow_full_range_noop s buf hbuf hnone hv1 hv2 heqr
  have h2 : (s.setTrimWindow ⟨s.mOriginalTime, s.getEndTime⟩).2 = s := by rw [hfull]
  refine ⟨by rw [hfull], ?_, ?_, ?_⟩
  · rw [h2, hfull]
  · rw [h2]
    rw [h2]
  · rw [h2]
    rw [h2]

/-! ## Claim theorems -/

/-- C5: after `MoveableData`, the bookkeeping is reset (data offset 0,
frame count 0, trim window cleared), a subsequent `Data()` read yields an
empty zero-length buffer, and a second `MoveableData` yields an empty
buffer. -/
theorem moveableData_resets_and_degrades_to_empty (s : AudioData) :
    s.moveableData.2.mDataOffset = 0 ∧ s.moveableData.2.mFrames = 0 ∧
    s.moveableData.2.mTrimWindow = none ∧ s.moveableData.2.dataSpan = [] ∧
    s.moveableData.2.moveableData.1 = [] := by
  cases h : s.mAudioData <;>
    simp [AudioData.moveableData, AudioData.dataSpan, h]

/-- C6 (counterexample): the claim "`ValidatePlane` returns true iff
stride ≥ width and width·height is below the pixel budget" fails at the
plane (width 0, height 0, stride 0): the claimed condition holds but
`ValidatePlane` rejects (it also demands a positive stride). -/
theorem validatePlane_claim_counterexample :
    ¬ (validatePlane 16384 35389440 ⟨0, 0, 0⟩ = true ↔
      ((0 : Nat) ≤ 0 ∧ (0 : Nat) * 0 < 35389440)) := by decide

/-- C6 (amended): `ValidatePlane` returns true iff width and height are at
most the maximum dimension, width·height is below the pixel budget, the
stride is positive, and stride ≥ width. -/
theorem validatePlane_true_iff (maxDimension pixelBudget : Nat) (p : Plane) :
    validatePlane maxDimension pixelBudget p = true ↔
      (p.mWidth ≤ maxDimension ∧ p.mHeight ≤ maxDimension ∧
        p.mWidth * p.mHeight < pixelBudget ∧ 0 < p.mStride ∧ p.mWidth ≤ p.mStride) := by
  simp [validatePlane, and_assoc]

/-- C7 (counterexample): constructing an `AudioData` with 0 channels does
not return an `InvalidArgument` error value — it fires
`MOZ_RELEASE_ASSERT`, an unrecoverable fault. -/
theorem audioData_ctor_zero_channels_counterexample :
    mkAudioData 0 TimeUnit.zero [] 0 48000 0 =
      .assertCrash "Can't create an AudioData with 0 channels." := rfl

/-- C7 (amended): construction with `channels == 0` or `rate == 0` always
ends in a release-assert crash rather than any returned value. -/
theorem audioData_ctor_zero_asserts (aOffset : Int) (aTime : TimeUnit) (aData : List Int)
    (aChannels aRate aChannelMap : Nat) (h : aChannels = 0 ∨ aRate = 0) :
    (mkAudioData aOffset aTime aData aChannels aRate aChannelMap).isAssertCrash = true := by
  rcases h with h | h
  · simp [mkAudioData, h, AudioCtorResult.isAssertCrash]
  · by_cases hc : aChannels = 0
    · simp [mkAudioData, hc, AudioCtorResult.isAssertCrash]
    · simp [mkAudioData, hc, h, AudioCtorResult.isAssertCrash]

/-- Witness for C7: the amended theorem applied at a concrete zero-channel
construction. -/
theorem audioData_ctor_zero_asserts_witness :
    (mkAudioData 0 TimeUnit.zero [] 0 48000 0).isAssertCrash = true :=
  audioData_ctor_zero_asserts 0 TimeUnit.zero [] 0 48000 0 (Or.inl rfl)

/-- C9: `MediaRawData::Clone` returns the full copy — all transferred
fields equal, reference-counted track info and extra data shared, crypto
metadata equal — exactly when both payload allocations succeed, and null
otherwise; never a sample with only part of the payload copied. -/
theorem mediaRawData_clone_full_or_null (s : MediaRawData) (bufferAllocOk alphaAllocOk : Bool) :
    s.clone bufferAllocOk alphaAllocOk =
      if bufferAllocOk && alphaAllocOk then some s else none := by
  cases s
  cases bufferAllocOk <;> cases alphaAllocOk <;> simp [MediaRawData.clone]

/-- C10: with a null `ImageContainer`, `CreateAndCopyData` skips all
validation and returns a dummy `VideoData` with no image whose metadata
fields are the supplied arguments, for every buffer and picture rect. -/
theorem createAndCopyData_null_container (maxDimension pixelBudget : Nat)
    (imageCreated copyOk : Bool) (aInfoDisplay : Nat × Nat) (aOffset : Int)
    (aTime aDuration : TimeUnit) (aBuffer : YCbCrBuffer) (aKeyframe : Bool)
    (aTimecode : TimeUnit) (aPicture : IntRect) :
    createAndCopyData maxDimension pixelBudget false imageCreated copyOk aInfoDisplay
        aOffset aTime aDuration aBuffer aKeyframe aTimecode aPicture =
      (.ok { mOffset := aOffset, mTime := aTime, mDuration := aDuration,
              mKeyframe := aKeyframe, mTimecode := aTimecode,
              mDisplay := aInfoDisplay, mImage := none }, false) := rfl

/-- C8 (counterexample): `UpdateDuration` does not preserve
`endTime = timestamp + duration`: on a frame at time 0 with duration 10 ms,
`UpdateDuration(5 ms)` moves the end time from 10 ms to 5 ms (the two end
times are not even rationally equal). -/
theorem updateDuration_endtime_counterexample :
    TimeUnit.eqRat
        ((mkVideoData 0 TimeUnit.zero (TimeUnit.fromMs 10) false TimeUnit.zero
            (0, 0)).updateDuration (TimeUnit.fromMs 5)).getEndTime
        (mkVideoData 0 TimeUnit.zero (TimeUnit.fromMs 10) false TimeUnit.zero
            (0, 0)).getEndTime = false := by decide

/-- C8 (amended): `UpdateTimestamp` recomputes the duration so the end time
is preserved (as a rational); `UpdateDuration` keeps the timestamp and
installs the new duration directly, so the end time follows the new
duration instead of being preserved. -/
theorem videoData_update_functions (s : VideoData) (ts d : TimeUnit)
    (hts : ts.mBase ≠ 0) :
    TimeUnit.eqRat (s.updateTimestamp ts).getEndTime s.getEndTime = true ∧
    (s.updateDuration d).mTime = s.mTime ∧ (s.updateDuration d).mDuration = d := by
  refine ⟨?_, rfl, rfl⟩
  exact TimeUnit.eqRat_add_sub s.getEndTime ts hts

/-- Witness for C8: the amended theorem at a concrete frame and update. -/
theorem videoData_update_functions_witness :
    TimeUnit.eqRat
        ((mkVideoData 0 TimeUnit.zero (TimeUnit.fromMs 10) false TimeUnit.zero
            (0, 0)).updateTimestamp (TimeUnit.fromMs 4)).getEndTime
        (mkVideoData 0 TimeUnit.zero (TimeUnit.fromMs 10) false TimeUnit.zero
            (0, 0)).getEndTime = true ∧
    ((mkVideoData 0 TimeUnit.zero (TimeUnit.fromMs 10) false TimeUnit.zero
        (0, 0)).updateDuration (TimeUnit.fromMs 5)).mTime =
      (mkVideoData 0 TimeUnit.zero (TimeUnit.fromMs 10) false TimeUnit.zero (0, 0)).mTime ∧
    ((mkVideoData 0 TimeUnit.zero (TimeUnit.fromMs 10) false TimeUnit.zero
        (0, 0)).updateDuration (TimeUnit.fromMs 5)).mDuration = TimeUnit.fromMs 5 :=
  videoData_update_functions
    (mkVideoData 0 TimeUnit.zero (TimeUnit.fromMs 10) false TimeUnit.zero (0, 0))
    (TimeUnit.fromMs 4) (TimeUnit.fromMs 5) (by decide)

/-- C2: on a freshly constructed `AudioData` (so that
`mOriginalTime + mDuration` is the end of the original range), a trim
window starting before the original time, ending after the original end,
or whose checked subtraction against the original time overflows, makes
`SetTrimWindow` return false with the frame completely unchanged. -/
theorem setTrimWindow_rejects_out_of_range (aOffset : Int) (aTime : TimeUnit)
    (aData : List Int) (aChannels aRate aChannelMap : Nat) (a : AudioData)
    (aTrim : TimeInterval)
    (ha : mkAudioData aOffset aTime aData aChannels aRate aChannelMap = .ok a)
    (h : TimeUnit.lt aTrim.mStart a.mOriginalTime = true ∨
        TimeUnit.lt (TimeUnit.add a.mOriginalTime a.mDuration) aTrim.mEnd = true ∨
        (TimeUnit.sub aTrim.mStart a.mOriginalTime).valid = false ∨
        (TimeUnit.sub aTrim.mEnd a.mOriginalTime).valid = false) :
    a.setTrimWindow aTrim = (false, a) := by
  apply setTrimWindow_reject
  have htime : a.mTime = a.mOriginalTime := by
    unfold mkAudioData at ha
    split at ha
    · exact absurd ha (by simp)
    · split at ha
      · exact absurd ha (by simp)
      · simp only [AudioCtorResult.ok.injEq] at ha
        subst ha
        rfl
  rw [AudioData.getEndTime, htime]
  exact h

/-- Witness input for C2: a fresh 2-channel 48 kHz frame of 4 samples. -/
def c2Audio : AudioData :=
  { mOffset := 0, mTime := TimeUnit.zero, mDuration := TimeUnit.ofTicks 2 48000,
    mChannels := 2, mChannelMap := 0, mRate := 48000, mOriginalTime := TimeUnit.zero,
    mAudioData := some [0, 0, 0, 0], mFrames := 2, mDataOffset := 0, mTrimWindow := none }

/-- Witness for C2: a window starting 1 ms before the original time is
rejected without mutation. -/
theorem setTrimWindow_rejects_out_of_range_witness :
    c2Audio.setTrimWindow ⟨TimeUnit.fromMs (-1), TimeUnit.fromMs 1⟩ = (false, c2Audio) :=
  setTrimWindow_rejects_out_of_range 0 TimeUnit.zero [0, 0, 0, 0] 2 48000 0 c2Audio
    ⟨TimeUnit.fromMs (-1), TimeUnit.fromMs 1⟩ (by decide) (Or.inl (by decide))

/-- C4: applying the full original-range trim window to a fresh frame twice
returns true both times and leaves frame count and data offset after the
second call equal to their values after the first call. -/
theorem setTrimWindow_full_range_idempotent (aOffset : Int) (aTime : TimeUnit)
    (aData : List Int) (aChannels aRate aChannelMap : Nat) (a : AudioData)
    (ha : mkAudioData aOffset aTime aData aChannels aRate aChannelMap = .ok a)
    (htv : aTime.valid = true) (htb : aTime.mBase ≠ 0)
    (hv2 : (TimeUnit.sub a.getEndTime a.mOriginalTime).valid = true) :
    (a.setTrimWindow ⟨a.mOriginalTime, a.getEndTime⟩).1 = true ∧
    ((a.setTrimWindow ⟨a.mOriginalTime, a.getEndTime⟩).2.setTrimWindow
        ⟨a.mOriginalTime, a.getEndTime⟩).1 = true ∧
    ((a.setTrimWindow ⟨a.mOriginalTime, a.getEndTime⟩).2.setTrimWindow
        ⟨a.mOriginalTime, a.getEndTime⟩).2.mFrames =
      (a.setTrimWindow ⟨a.mOriginalTime, a.getEndTime⟩).2.mFrames ∧
    ((a.setTrimWindow ⟨a.mOriginalTime, a.getEndTime⟩).2.setTrimWindow
        ⟨a.mOriginalTime, a.getEndTime⟩).2.mDataOffset =
      (a.setTrimWindow ⟨a.mOriginalTime, a.getEndTime⟩).2.mDataOffset := by
  unfold mkAudioData at ha
  split at ha
  · exact absurd ha (by simp)
  · split at ha
    · exact absurd ha (by simp)
    · simp only [AudioCtorResult.ok.injEq] at ha
      subst ha
      have hfits0 : fitsInt64 0 = true := by decide
      have hv1 : (TimeUnit.sub aTime aTime).valid = true := by
        rw [TimeUnit.sub_same aTime aTime rfl]
        simp [htv, hfits0]
      exact setTrimWindow_full_range_twice _ aData rfl rfl hv1 hv2
        (TimeUnit.eqRat_sub_add aTime _ htb)

/-- Witness input for C4: a fresh 2-channel 48 kHz frame of 4 samples whose
timestamps are in microseconds. -/
def c4Audio : AudioData :=
  { mOffset := 0, mTime := ⟨0, 1000000, true⟩, mDuration := TimeUnit.ofTicks 2 48000,
    mChannels := 2, mChannelMap := 0, mRate := 48000,
    mOriginalTime := ⟨0, 1000000, true⟩, mAudioData := some [0, 0, 0, 0],
    mFrames := 2, mDataOffset := 0, mTrimWindow := none }

/-- Witness for C4: the idempotence theorem at the concrete frame. -/
theorem setTrimWindow_full_range_idempotent_witness :
    (c4Audio.setTrimWindow ⟨c4Audio.mOriginalTime, c4Audio.getEndTime⟩).1 = true ∧
    ((c4Audio.setTrimWindow ⟨c4Audio.mOriginalTime, c4Audio.getEndTime⟩).2.setTrimWindow
        ⟨c4Audio.mOriginalTime, c4Audio.getEndTime⟩).1 = true ∧
    ((c4Audio.setTrimWindow ⟨c4Audio.mOriginalTime, c4Audio.getEndTime⟩).2.setTrimWindow
        ⟨c4Audio.mOriginalTime, c4Audio.getEndTime⟩).2.mFrames =
      (c4Audio.setTrimWindow ⟨c4Audio.mOriginalTime, c4Audio.getEndTime⟩).2.mFrames ∧
    ((c4Audio.setTrimWindow ⟨c4Audio.mOriginalTime, c4Audio.getEndTime⟩).2.setTrimWindow
        ⟨c4Audio.mOriginalTime, c4Audio.getEndTime⟩).2.mDataOffset =
      (c4Audio.setTrimWindow ⟨c4Audio.mOriginalTime, c4Audio.getEndTime⟩).2.mDataOffset :=
  setTrimWindow_full_range_idempotent 0 ⟨0, 1000000, true⟩ [0, 0, 0, 0] 2 48000 0 c4Audio
    (by decide) (by decide) (by decide) (by decide)

/-- The concrete scenario frame of C3: 9600 interleaved samples, 2
channels, 48 kHz, starting at time zero. -/
def scenarioAudio : AudioData :=
  { mOffset := 0, mTime := TimeUnit.zero, mDuration := TimeUnit.ofTicks 4800 48000,
    mChannels := 2, mChannelMap := 0, mRate := 48000, mOriginalTime := TimeUnit.zero,
    mAudioData := some (List.replicate 9600 0), mFrames := 4800, mDataOffset := 0,
    mTrimWindow := none }

/-- Evaluation of the C3 trim scenario on the concrete frame. -/
theorem scenario_trim_eval :
    (scenarioAudio.setTrimWindow ⟨TimeUnit.fromMs 20, TimeUnit.fromMs 60⟩).1 = true ∧
    (scenarioAudio.setTrimWindow ⟨TimeUnit.fromMs 20, TimeUnit.fromMs 60⟩).2.mFrames = 1920 ∧
    (scenarioAudio.setTrimWindow ⟨TimeUnit.fromMs 20, TimeUnit.fromMs 60⟩).2.mDataOffset
      = 1920 := by
  have hlen : (List.replicate 9600 (0 : Int)).length = 9600 :=
    List.length_replicate 9600 0
  unfold scenarioAudio AudioData.setTrimWindow
  norm_num [TimeUnit.lt, TimeUnit.sub, TimeUnit.add, TimeUnit.eqRat, TimeUnit.isZero,
    TimeUnit.isBase, TimeUnit.toTicksAtRate, TimeUnit.ofTicks, TimeUnit.fromMs, TimeUnit.zero,
    fitsInt64, AudioData.getEndTime, hlen]
  decide

/-- The constructor output at the wrap-length input of the C3
counterexample: 2^32 mono samples narrow to a frame count of 0. -/
def c3WrapAudio : AudioData :=
  { mOffset := 0, mTime := TimeUnit.zero, mDuration := TimeUnit.ofTicks 0 48000,
    mChannels := 1, mChannelMap := 0, mRate := 48000, mOriginalTime := TimeUnit.zero,
    mAudioData := some (List.replicate (2 ^ 32) 0), mFrames := 0, mDataOffset := 0,
    mTrimWindow := none }

/-- C3 (counterexample): the claim "the reported frame count equals
`L / C`" fails at a buffer of 2^32 mono samples: the `size_t` quotient
2^32 narrows to the `uint32_t` member `mFrames` as 0, not 2^32. -/
theorem audioData_framecount_claim_counterexample :
    mkAudioData 0 TimeUnit.zero (List.replicate (2 ^ 32) 0) 1 48000 0 = .ok c3WrapAudio ∧
    c3WrapAudio.mFrames ≠ (List.replicate (2 ^ 32) (0 : Int)).length / 1 := by
  have hlen : (List.replicate (2 ^ 32) (0 : Int)).length = 2 ^ 32 :=
    List.length_replicate _ _
  constructor
  · simp only [mkAudioData, c3WrapAudio, hlen]
    norm_num [TimeUnit.ofTicks]
  · rw [hlen]
    norm_num [c3WrapAudio]

set_option maxRecDepth 4000 in
/-- C3 (amended): every constructed `AudioData` reports
`mFrames = (length / channels) mod 2^32` — the `uint32_t` narrowing of the
`size_t` quotient, equal to `length / channels` whenever that quotient is
below 2^32 — and a duration of exactly `mFrames / rate` as a rational;
concretely, the 2-channel 48 kHz frame of 9600 samples has 4800 frames
and a duration rationally equal to 100 ms, and trimming it to
[20 ms, 60 ms) succeeds with 1920 frames and data offset 1920 samples. -/
theorem audioData_frames_duration_and_scenario :
    (∀ (aOffset : Int) (aTime : TimeUnit) (aData : List Int)
        (aChannels aRate aChannelMap : Nat) (a : AudioData),
        mkAudioData aOffset aTime aData aChannels aRate aChannelMap = .ok a →
        a.mFrames = aData.length / aChannels % 2 ^ 32 ∧
        (aData.length / aChannels < 2 ^ 32 → a.mFrames = aData.length / aChannels) ∧
        a.mDuration.mTicks = ((aData.length / aChannels % 2 ^ 32 : Nat) : Int) ∧
        a.mDuration.mBase = ((aRate : Nat) : Int)) ∧
    mkAudioData 0 TimeUnit.zero (List.replicate 9600 0) 2 48000 0 = .ok scenarioAudio ∧
    scenarioAudio.mFrames = 4800 ∧
    TimeUnit.eqRat scenarioAudio.mDuration (TimeUnit.fromMs 100) = true ∧
    (scenarioAudio.setTrimWindow ⟨TimeUnit.fromMs 20, TimeUnit.fromMs 60⟩).1 = true ∧
    (scenarioAudio.setTrimWindow ⟨TimeUnit.fromMs 20, TimeUnit.fromMs 60⟩).2.mFrames = 1920 ∧
    (scenarioAudio.setTrimWindow ⟨TimeUnit.fromMs 20, TimeUnit.fromMs 60⟩).2.mDataOffset
      = 1920 := by
  constructor
  · intro aOffset aTime aData aChannels aRate aChannelMap a ha
    unfold mkAudioData at ha
    split at ha
    · exact absurd ha (by simp)
    · split at ha
      · exact absurd ha (by simp)
      · simp only [AudioCtorResult.ok.injEq] at ha
        subst ha
        exact ⟨rfl, fun h => Nat.mod_eq_of_lt h, rfl, rfl⟩
  · have hlen : (List.replicate 9600 (0 : Int)).length = 9600 :=
      List.length_replicate 9600 0
    refine ⟨?_, rfl, by decide, scenario_trim_eval.1, scenario_trim_eval.2.1,
      scenario_trim_eval.2.2⟩
    simp only [mkAudioData, scenarioAudio, hlen]
    norm_num [TimeUnit.ofTicks]

/-- Witness input for C3: a fresh 2-channel 48 kHz frame of 4 samples. -/
def c3Audio : AudioData :=
  { mOffset := 0, mTime := TimeUnit.zero, mDuration := TimeUnit.ofTicks 2 48000,
    mChannels := 2, mChannelMap := 0, mRate := 48000, mOriginalTime := TimeUnit.zero,
    mAudioData := some [0, 0, 0, 0], mFrames := 2, mDataOffset := 0, mTrimWindow := none }

/-- Witness for C3: the universally quantified part applied to the concrete
4-sample stereo frame. -/
theorem audioData_frames_duration_witness :
    c3Audio.mFrames = ([0, 0, 0, 0] : List Int).length / 2 % 2 ^ 32 ∧
    (([0, 0, 0, 0] : List Int).length / 2 < 2 ^ 32 →
      c3Audio.mFrames = ([0, 0, 0, 0] : List Int).length / 2) ∧
    c3Audio.mDuration.mTicks = ((([0, 0, 0, 0] : List Int).length / 2 % 2 ^ 32 : Nat) : Int) ∧
    c3Audio.mDuration.mBase = ((48000 : Nat) : Int) :=
  audioData_frames_duration_and_scenario.1 0 TimeUnit.zero [0, 0, 0, 0] 2 48000 0 c3Audio
    (by decide)

/-- If the picture rectangle exceeds the Y plane bounds, buffer/picture
validation fails with one of its four `NS_ERROR_INVALID_ARG` reasons. -/
theorem validate_overflow_invalidArg (maxDimension pixelBudget : Nat)
    (aBuffer : YCbCrBuffer) (aPicture : IntRect)
    (h : picExceedsYPlaneBounds aBuffer aPicture = true) :
    ∃ msg, (msg = "Chroma planes with different sizes" ∨ msg = "Empty picture rect" ∨
        msg = "Invalid plane size" ∨ msg = "Overflowing picture rect") ∧
      validateBufferAndPicture maxDimension pixelBudget aBuffer aPicture =
        .error (.invalidArg msg) := by
  unfold validateBufferAndPicture
  split_ifs with h1 h2 h3
  · exact ⟨"Chroma planes with different sizes", by tauto, rfl⟩
  · exact ⟨"Empty picture rect", by tauto, rfl⟩
  · exact ⟨"Invalid plane size", by tauto, rfl⟩
  · unfold picExceedsYPlaneBounds at h
    rw [Bool.or_eq_true] at h
    cases hx : checkedAddUint32 aPicture.x aPicture.width with
    | none =>
      exact ⟨"Overflowing picture rect", by tauto, rfl⟩
    | some xv =>
      cases hy : checkedAddUint32 aPicture.y aPicture.height with
      | none =>
        exact ⟨"Overflowing picture rect", by tauto, rfl⟩
      | some yv =>
        rw [hx, hy] at h
        simp only [decide_eq_true_eq] at h
        have h' : aBuffer.mPlanes0.mStride < xv ∨ aBuffer.mPlanes0.mHeight < yv := by
          rcases h with h | h
          · exact Or.inl h
          · exact Or.inr h
        exact ⟨"Overflowing picture rect", by tauto, if_pos h'⟩

/-- C1: with a container present, a picture rectangle that exceeds the Y
plane bounds (checked `x+width` overflows or exceeds the Y stride, or
checked `y+height` overflows or exceeds the Y height) makes
`CreateAndCopyData` fail with an `NS_ERROR_INVALID_ARG` carrying one of
the four reason strings, with the plane-copy step never invoked. -/
theorem createAndCopyData_overflowing_picture_fails (maxDimension pixelBudget : Nat)
    (imageCreated copyOk : Bool) (aInfoDisplay : Nat × Nat) (aOffset : Int)
    (aTime aDuration : TimeUnit) (aBuffer : YCbCrBuffer) (aKeyframe : Bool)
    (aTimecode : TimeUnit) (aPicture : IntRect)
    (h : picExceedsYPlaneBounds aBuffer aPicture = true) :
    isListedInvalidArg (createAndCopyData maxDimension pixelBudget true imageCreated copyOk
        aInfoDisplay aOffset aTime aDuration aBuffer aKeyframe aTimecode aPicture).1 = true ∧
    (createAndCopyData maxDimension pixelBudget true imageCreated copyOk
        aInfoDisplay aOffset aTime aDuration aBuffer aKeyframe aTimecode aPicture).2
      = false := by
  obtain ⟨msg, hmsg, hval⟩ :=
    validate_overflow_invalidArg maxDimension pixelBudget aBuffer aPicture h
  have hstep : createAndCopyData maxDimension pixelBudget true imageCreated copyOk
      aInfoDisplay aOffset aTime aDuration aBuffer aKeyframe aTimecode aPicture =
      (.error (.invalidArg msg), false) := by
    simp [createAndCopyData, hval]
  rw [hstep]
  refine ⟨?_, rfl⟩
  simp only [isListedInvalidArg]
  rw [decide_eq_true_eq]
  exact hmsg

/-- Witness input for C1: three square 16 × 16 planes. -/
def c1Buffer : YCbCrBuffer := ⟨⟨16, 16, 16⟩, ⟨8, 8, 8⟩, ⟨8, 8, 8⟩⟩

/-- Witness input for C1: a picture rect whose `x + width` (32) exceeds the
Y stride (16). -/
def c1Picture : IntRect := ⟨0, 0, 32, 16⟩

/-- Witness for C1: the overflow-rejection theorem at the concrete buffer
and picture rect. -/
theorem createAndCopyData_overflowing_picture_fails_witness :
    isListedInvalidArg (createAndCopyData 16384 35389440 true true true (16, 16) 0
        TimeUnit.zero TimeUnit.zero c1Buffer false TimeUnit.zero c1Picture).1 = true ∧
    (createAndCopyData 16384 35389440 true true true (16, 16) 0
        TimeUnit.zero TimeUnit.zero c1Buffer false TimeUnit.zero c1Picture).2 = false :=
  createAndCopyData_overflowing_picture_fails 16384 35389440 true true (16, 16) 0
    TimeUnit.zero TimeUnit.zero c1Buffer false TimeUnit.zero c1Picture (by decide)

end MediaData
